import Mathlib

/-!
# Verification of the trio scheduler trap layer

A shallow embedding of `src/trio/_core/_traps.py` together with the parts of
the kernel it interacts with (the result carrier, the cancel-scope stack, and
the run loop's trap servicing and cancellation delivery), which are described
in the design specification but whose source is not part of this snapshot;
those parts are modelled from the spec and marked as such.
-/

namespace Trio

/-- Exception kinds that cross the scheduler boundary (spec §7: `Cancelled`,
`ClosedResourceError`, `TrioInternalError`, plus `KeyboardInterrupt` which
`raise_cancel` may also produce, and arbitrary user exceptions). -/
inductive Exc where
  | cancelled
  | keyboardInterrupt
  | trioInternalError
  | closedResourceError
  | userError (code : Nat)
deriving DecidableEq, Repr

/-- Modelled from the spec: the Result carrier (§4.A), `{Value(v) | Error(e)}`;
the source file `_result.py` is not in this snapshot.  `Value` and `Error` are
the two constructors. -/
inductive Result (V : Type) where
  | Value (v : V)
  | Error (e : Exc)
deriving DecidableEq, Repr

/-- Modelled from the spec: `unwrap()` returns `v` or re-raises `e` at the
call site (§4.A).  Raising is embedded as `Except.error`. -/
def Result.unwrap {V : Type} : Result V → Except Exc V
  | .Value v => .ok v
  | .Error e => .error e

/-- `Abort`, the enum returned by abort functions
(src/trio/_core/_traps.py lines 47-57): exactly the two members
`SUCCEEDED = 1` and `FAILED = 2`. -/
inductive Abort where
  | SUCCEEDED
  | FAILED
deriving DecidableEq, Repr

/-- The observable behavior of a user-supplied abort callback when invoked
with `raise_cancel`: it returns an `Abort` member, returns some non-`Abort`
value, or raises an exception (the docstring warning,
src/trio/_core/_traps.py lines 149-156, covers the latter two). -/
inductive AbortBehavior where
  | returnsAbort (a : Abort)
  | returnsOther
  | raisesExc (e : Exc)
deriving DecidableEq, Repr

/-- An abort callback: an identity (so distinct callbacks can be told apart)
together with its behavior when invoked. -/
structure AbortFunc where
  fid : Nat
  behavior : AbortBehavior
deriving DecidableEq, Repr

/-- The closed set of trap values a task may yield to the task runner.
`src/trio/_core/_traps.py` opens with "These are the only 2 functions that
ever yield back to the task runner" and defines exactly two sentinel classes:
the `CancelShieldedCheckpoint` singleton (lines 26-27) and the frozen attrs
class `WaitTaskRescheduled` carrying `abort_func` (lines 61-63). -/
inductive Trap where
  | WaitTaskRescheduled (abort_func : AbortFunc)
  | CancelShieldedCheckpoint
deriving DecidableEq, Repr

/-- The `abort_func` field of a `WaitTaskRescheduled` trap
(src/trio/_core/_traps.py line 63). -/
def Trap.abortFuncOf : Trap → Option AbortFunc
  | .WaitTaskRescheduled f => some f
  | .CancelShieldedCheckpoint => none

/-- Modelled from the spec: a cancel scope's fields relevant to the
effective-cancel rule (§3: a `shield` flag and a `cancel_called` flag); the
cancel-scope source is not in this snapshot. -/
structure CancelScope where
  cancel_called : Bool
  shield : Bool
deriving DecidableEq, Repr

/-- Modelled from the spec: the effective-cancel rule (§4.C): "evaluating from
the innermost scope outward, the first scope with `shield=true` terminates the
scan; if any scope encountered before termination has `cancel_called=true`,
the task is cancelled"; a scope's own `cancel_called` is observed at the
moment it is encountered, so it is not masked by that same scope's shield.
The stack is listed innermost (nearest the stack top) first. -/
def effectivelyCancelled : List CancelScope → Bool
  | [] => false
  | s :: rest => s.cancel_called || (!s.shield && effectivelyCancelled rest)

/-- The claim's first formulation of the effective-cancel rule: some scope on
the stack has `cancel_called=true` and no scope strictly nearer the stack top
than that scope has `shield=true` (the stack is innermost-first, so "strictly
nearer the stack top" means a strictly smaller index). -/
def cancelWitnessExists (stack : List CancelScope) : Prop :=
  ∃ i s, stack.get? i = some s ∧ s.cancel_called = true ∧
    ∀ j t, j < i → stack.get? j = some t → t.shield = false

/-- The outcome of a (possibly partial) checkpoint operation: return after
yielding control to the scheduler a given number of times, or raise. -/
inductive CheckpointOutcome where
  | ok (schedulePoints : Nat)
  | raises (e : Exc)
deriving DecidableEq, Repr

/-- Modelled from the spec: the run loop services a `CancelShieldedCheckpoint`
trap by re-enqueueing the task with `Value(None)` (§4.F step 3); the run-loop
source is not in this snapshot. -/
def serviceCancelShieldedCheckpoint : Result Unit := Result.Value ()

/-- `cancel_shielded_checkpoint()` (src/trio/_core/_traps.py lines 30-43):
yields the `CancelShieldedCheckpoint` singleton once and unwraps the result
the scheduler resumes it with.  The scheduler's resume value is
`serviceCancelShieldedCheckpoint`; the cancel-scope stack is not consulted. -/
def cancel_shielded_checkpoint (_stack : List CancelScope) : CheckpointOutcome :=
  match serviceCancelShieldedCheckpoint.unwrap with
  | .ok _ => .ok 1
  | .error e => .raises e

/-- Modelled from the spec: `checkpoint()` — "if cancelled, raise `Cancelled`;
otherwise yield control at least once" (§4.D); its source is not in this
snapshot. -/
def checkpoint (stack : List CancelScope) : CheckpointOutcome :=
  if effectivelyCancelled stack then .raises .cancelled else .ok 1

/-- Modelled from the spec: `checkpoint_if_cancelled()` — "raises if
cancelled, else no-op (no yield)" (§4.D); its source is not in this
snapshot. -/
def checkpoint_if_cancelled (stack : List CancelScope) : CheckpointOutcome :=
  if effectivelyCancelled stack then .raises .cancelled else .ok 0

/-- Sequencing of two checkpoint outcomes: if the first raises, the second
never runs; otherwise schedule points accumulate. -/
def seqOutcome : CheckpointOutcome → CheckpointOutcome → CheckpointOutcome
  | .raises e, _ => .raises e
  | .ok _, .raises e => .raises e
  | .ok m, .ok n => .ok (m + n)

/-- The status of one task's current park, as the kernel sees it.  While
parked, `registered` holds the task's `_abort_func`; `none` means the single
abort attempt for this park has already been spent (modelled from the spec:
"A given park has at most one `abort_func` invocation", §4.F).  `runnable r`
is the RUNNABLE state with pending result `r`; `crashed e` is a fatal kernel
error terminating the run. -/
inductive TaskStatus where
  | parked (registered : Option AbortFunc)
  | runnable (r : Result Unit)
  | crashed (e : Exc)
deriving DecidableEq, Repr

/-- Parking on a yielded trap (spec §4.D): `WaitTaskRescheduled(abort_func)`
records the abort callback and parks; `CancelShieldedCheckpoint` makes the
task runnable again with `Value(None)`. -/
def parkOnTrap : Trap → TaskStatus
  | .WaitTaskRescheduled f => .parked (some f)
  | .CancelShieldedCheckpoint => .runnable serviceCancelShieldedCheckpoint

/-- `raise_cancel` constructs a `Cancelled` exception (spec §4.F). -/
def raise_cancel_exc : Exc := Exc.cancelled

/-- An event the kernel processes against a single task's park:
`deliverCancel` is the cancellation-delivery walk reaching this task
(spec §4.F); `reschedule r` is "someone" calling `reschedule(task, r)`. -/
inductive KernelEvent where
  | deliverCancel
  | reschedule (r : Result Unit)
deriving DecidableEq, Repr

/-- The result of one kernel step: the task's new status, plus the abort
callback invoked during the step, if any (a ghost observation used to state
the at-most-once and identity properties). -/
structure StepOut where
  status : TaskStatus
  invoked : Option AbortFunc
deriving DecidableEq, Repr

/-- Modelled from the spec: one kernel step on a parked task (§4.F
"Cancellation delivery" and §4.D transitions); the run-loop source is not in
this snapshot.  On delivery the registered `abort_func` is invoked with
`raise_cancel` and then deregistered regardless of outcome, so it can never
be invoked again for this park: `SUCCEEDED` reschedules the task with
`Error(Cancelled)` built by `raise_cancel`; `FAILED` leaves it parked; any
other return value or a raised exception is a fatal kernel error wrapped in
`TrioInternalError`.  Delivery against a park whose attempt is spent is a
no-op, and `reschedule(task, r)` makes a parked task runnable with pending
result `r`. -/
def kernelStep : TaskStatus → KernelEvent → StepOut
  | .parked (some f), .deliverCancel =>
    match f.behavior with
    | .returnsAbort .SUCCEEDED =>
      ⟨.runnable (.Error raise_cancel_exc), some f⟩
    | .returnsAbort .FAILED => ⟨.parked none, some f⟩
    | .returnsOther => ⟨.crashed .trioInternalError, some f⟩
    | .raisesExc _ => ⟨.crashed .trioInternalError, some f⟩
  | .parked none, .deliverCancel => ⟨.parked none, none⟩
  | .parked _, .reschedule r => ⟨.runnable r, none⟩
  | st, _ => ⟨st, none⟩

/-- Run a sequence of kernel events from a status, collecting the abort
callbacks invoked along the way, in order. -/
def runEvents (st : TaskStatus) : List KernelEvent → TaskStatus × List AbortFunc
  | [] => (st, [])
  | ev :: rest =>
    ((runEvents (kernelStep st ev).status rest).1,
      (kernelStep st ev).invoked.toList
        ++ (runEvents (kernelStep st ev).status rest).2)

/-- The number of abort attempts still available against a task in the given
status: one while it is parked with a registered `_abort_func`, none
otherwise. -/
def invokeBudget : TaskStatus → Nat
  | .parked (some _) => 1
  | _ => 0

/-- While the park begun with abort callback `f` is live, the registered
callback is still `f`. -/
def parkGuard (f : AbortFunc) : TaskStatus → Prop
  | .parked (some g) => g = f
  | _ => True

/-- `wait_task_rescheduled` resumes by unwrapping the `Result` it was
rescheduled with (src/trio/_core/_traps.py line 159:
`return (await _async_yield(WaitTaskRescheduled(abort_func))).unwrap()`). -/
def wait_task_rescheduled_resume (r : Result Unit) : Except Exc Unit :=
  r.unwrap

/-- Modelled from the spec: the state of a `PipeSendStream` relevant to
closure (§7.3 and the test `test_send_on_closed_pipe`); the source
`_subprocess/unix_pipes.py` is not in this snapshot. -/
structure PipeSendStream where
  fd : Nat
  closed : Bool
deriving DecidableEq, Repr

/-- Modelled from the spec: `aclose()` marks the stream closed. -/
def PipeSendStream.aclose (s : PipeSendStream) : PipeSendStream :=
  { s with closed := true }

/-- Modelled from the spec: `send_all` on a closed stream raises
`ClosedResourceError`, propagated as an ordinary exception (§7.3); on an open
stream it writes the data and returns. -/
def PipeSendStream.send_all (s : PipeSendStream) (_data : List Nat) :
    Except Exc Unit :=
  if s.closed then .error .closedResourceError else .ok ()

/-! ## Helper lemmas -/

theorem kernelStep_budget (st : TaskStatus) (ev : KernelEvent) :
    (kernelStep st ev).invoked.toList.length
        + invokeBudget (kernelStep st ev).status ≤ invokeBudget st := by
  cases st with
  | parked reg =>
    cases reg with
    | none => cases ev <;> simp [kernelStep, invokeBudget]
    | some f =>
      cases ev with
      | deliverCancel =>
        cases hb : f.behavior with
        | returnsAbort a => cases a <;> simp [kernelStep, hb, invokeBudget]
        | returnsOther => simp [kernelStep, hb, invokeBudget]
        | raisesExc e => simp [kernelStep, hb, invokeBudget]
      | reschedule r => simp [kernelStep, invokeBudget]
  | runnable r => cases ev <;> simp [kernelStep, invokeBudget]
  | crashed e => cases ev <;> simp [kernelStep, invokeBudget]

theorem runEvents_length_le (st : TaskStatus) (evs : List KernelEvent) :
    (runEvents st evs).2.length ≤ invokeBudget st := by
  induction evs generalizing st with
  | nil => simp [runEvents]
  | cons ev rest ih =>
    have h1 := kernelStep_budget st ev
    have h2 := ih (kernelStep st ev).status
    simp only [runEvents, List.length_append]
    omega

theorem kernelStep_guard (f : AbortFunc) (st : TaskStatus) (ev : KernelEvent)
    (h : parkGuard f st) :
    parkGuard f (kernelStep st ev).status ∧
      ∀ g, (kernelStep st ev).invoked = some g → g = f := by
  cases st with
  | parked reg =>
    cases reg with
    | none => cases ev <;> simp [kernelStep, parkGuard]
    | some g =>
      have hg : g = f := h
      cases ev with
      | deliverCancel =>
        cases hb : g.behavior with
        | returnsAbort a => cases a <;> simp_all [kernelStep, parkGuard]
        | returnsOther => simp_all [kernelStep, parkGuard]
        | raisesExc e => simp_all [kernelStep, parkGuard]
      | reschedule r => simp [kernelStep, parkGuard]
  | runnable r => cases ev <;> simp [kernelStep, parkGuard]
  | crashed e => cases ev <;> simp [kernelStep, parkGuard]

theorem runEvents_invoked_eq (f : AbortFunc) (st : TaskStatus)
    (h : parkGuard f st) (evs : List KernelEvent) :
    ∀ g ∈ (runEvents st evs).2, g = f := by
  induction evs generalizing st with
  | nil => simp [runEvents]
  | cons ev rest ih =>
    have hstep := kernelStep_guard f st ev h
    intro g hg
    simp only [runEvents, List.mem_append] at hg
    rcases hg with hg | hg
    · simp only [Option.mem_toList, Option.mem_def] at hg
      exact hstep.2 g hg
    · exact ih _ hstep.1 g hg

/-! ## Claim theorems -/

/-- C1: for every cancel-scope stack, `checkpoint()` is observationally
equivalent to `checkpoint_if_cancelled()` immediately followed by
`cancel_shielded_checkpoint()`: both raise `Cancelled` exactly when the
task's effective cancel state is cancelled, and otherwise return after
yielding to the scheduler at least once. -/
theorem checkpoint_law (stack : List CancelScope) :
    checkpoint stack
        = seqOutcome (checkpoint_if_cancelled stack)
          (cancel_shielded_checkpoint stack) ∧
    (checkpoint stack = .raises .cancelled ↔ effectivelyCancelled stack = true) ∧
    (effectivelyCancelled stack = false →
      ∃ n, 1 ≤ n ∧ checkpoint stack = .ok n) := by
  cases h : effectivelyCancelled stack <;>
    simp [checkpoint, checkpoint_if_cancelled, cancel_shielded_checkpoint,
      serviceCancelShieldedCheckpoint, Result.unwrap, seqOutcome, h]

/-- C1 witness: on the concrete stack with one cancelled, unshielded scope
the effective state is cancelled and `checkpoint` raises `Cancelled`. -/
theorem checkpoint_law_witness :
    effectivelyCancelled [⟨true, false⟩] = false →
      ∃ n, 1 ≤ n ∧ checkpoint [⟨true, false⟩] = .ok n :=
  (checkpoint_law [⟨true, false⟩]).2.2

/-- C2: the task's effective cancel state is cancelled (per the spec's scan
rule, embodied by `effectivelyCancelled`) if and only if some scope on the
stack has `cancel_called = true` and no scope strictly nearer the stack top
than that scope has `shield = true`; the predicate is a pure function of the
stack contents and the two flags, so it is determined by its inputs. -/
theorem effective_cancel_rule (stack : List CancelScope) :
    effectivelyCancelled stack = true ↔ cancelWitnessExists stack := by
  induction stack with
  | nil =>
    constructor
    · intro h; simp [effectivelyCancelled] at h
    · rintro ⟨i, s, hget, -, -⟩; simp at hget
  | cons s rest ih =>
    constructor
    · intro h
      simp only [effectivelyCancelled, Bool.or_eq_true, Bool.and_eq_true,
        Bool.not_eq_true'] at h
      rcases h with h | ⟨hs, hrest⟩
      · exact ⟨0, s, rfl, h, fun j t hj _ => absurd hj (Nat.not_lt_zero j)⟩
      · rcases ih.mp hrest with ⟨i, w, hget, hcc, hsh⟩
        refine ⟨i + 1, w, by simpa using hget, hcc, ?_⟩
        intro j t hj hget'
        cases j with
        | zero =>
          simp only [List.get?_cons_zero, Option.some.injEq] at hget'
          exact hget' ▸ hs
        | succ k =>
          exact hsh k t (Nat.lt_of_succ_lt_succ hj) (by simpa using hget')
    · rintro ⟨i, w, hget, hcc, hsh⟩
      cases i with
      | zero =>
        simp only [List.get?_cons_zero, Option.some.injEq] at hget
        simp [effectivelyCancelled, hget ▸ hcc]
      | succ k =>
        have hs0 : s.shield = false :=
          hsh 0 s (Nat.succ_pos k) List.get?_cons_zero
        have hcw : cancelWitnessExists rest :=
          ⟨k, w, by simpa using hget, hcc,
            fun j t hj hg =>
              hsh (j + 1) t (Nat.succ_lt_succ hj) (by simpa using hg)⟩
        simp [effectivelyCancelled, hs0, ih.mpr hcw]

/-- C3: the trap layer defines exactly two values that yield back to the task
runner: every trap is either a `WaitTaskRescheduled` carrying an abort
callback or the `CancelShieldedCheckpoint` singleton, and the scheduler's
parking transition is total on exactly this set. -/
theorem trap_set_closed (t : Trap) :
    ((∃ f, t = .WaitTaskRescheduled f) ∨ t = .CancelShieldedCheckpoint) ∧
    ((∃ f, parkOnTrap t = .parked (some f)) ∨
      parkOnTrap t = .runnable (.Value ())) := by
  cases t with
  | WaitTaskRescheduled f =>
    exact ⟨Or.inl ⟨f, rfl⟩, Or.inl ⟨f, rfl⟩⟩
  | CancelShieldedCheckpoint =>
    exact ⟨Or.inr rfl, Or.inr rfl⟩

/-- C4: for a park begun by yielding `WaitTaskRescheduled(abort_func)`, any
sequence of kernel events (cancellation deliveries and reschedules) invokes
the abort callback at most once. -/
theorem abort_func_at_most_once_per_park (f : AbortFunc)
    (evs : List KernelEvent) :
    (runEvents (parkOnTrap (.WaitTaskRescheduled f)) evs).2.length ≤ 1 :=
  runEvents_length_le (parkOnTrap (.WaitTaskRescheduled f)) evs

/-- C5: when cancellation is delivered to a parked task, an abort callback
returning `Abort.SUCCEEDED` makes the kernel reschedule the task with
`Error(Cancelled)` built by `raise_cancel` — so the pending
`wait_task_rescheduled` raises `Cancelled` — while one returning
`Abort.FAILED` leaves the task parked with no reschedule. -/
theorem abort_outcome_determines_reschedule (fid : Nat) :
    (kernelStep (.parked (some ⟨fid, .returnsAbort .SUCCEEDED⟩))
        .deliverCancel).status = .runnable (.Error raise_cancel_exc) ∧
    raise_cancel_exc = Exc.cancelled ∧
    wait_task_rescheduled_resume (.Error raise_cancel_exc)
        = .error Exc.cancelled ∧
    (kernelStep (.parked (some ⟨fid, .returnsAbort .FAILED⟩))
        .deliverCancel).status = .parked none := by
  refine ⟨rfl, rfl, rfl, rfl⟩

/-- C6: `reschedule(task, result)` on a parked task makes it runnable with
exactly that pending result, and `wait_task_rescheduled` unwraps it at the
suspension site: `Value(v)` makes the call return `v`, `Error(e)` makes it
raise `e`. -/
theorem reschedule_result_unwrapped_at_wait (reg : Option AbortFunc)
    (r : Result Unit) :
    (kernelStep (.parked reg) (.reschedule r)).status = .runnable r ∧
    (∀ v, wait_task_rescheduled_resume (.Value v) = .ok v) ∧
    (∀ e, wait_task_rescheduled_resume (.Error e) = .error e) := by
  refine ⟨?_, fun v => rfl, fun e => rfl⟩
  cases reg <;> rfl

/-- C7: `Abort` has exactly the two members `SUCCEEDED` and `FAILED`, and an
abort callback that returns anything else or raises makes the kernel crash
with the fatal `TrioInternalError`. -/
theorem invalid_abort_is_fatal (fid : Nat) (e : Exc) :
    (∀ a : Abort, a = .SUCCEEDED ∨ a = .FAILED) ∧
    (kernelStep (.parked (some ⟨fid, .returnsOther⟩)) .deliverCancel).status
        = .crashed .trioInternalError ∧
    (kernelStep (.parked (some ⟨fid, .raisesExc e⟩)) .deliverCancel).status
        = .crashed .trioInternalError := by
  refine ⟨fun a => ?_, rfl, rfl⟩
  cases a
  · exact Or.inl rfl
  · exact Or.inr rfl

/-- C8: `cancel_shielded_checkpoint()` yields exactly once, returns, and
never raises — for every cancel-scope stack, including cancelled ones — and
it equals a full `checkpoint()` run inside a freshly opened scope with
`shield = true`. -/
theorem cancel_shielded_checkpoint_no_cancel_check (stack : List CancelScope) :
    cancel_shielded_checkpoint stack = .ok 1 ∧
    (∀ e, cancel_shielded_checkpoint stack ≠ .raises e) ∧
    cancel_shielded_checkpoint stack
        = checkpoint (⟨false, true⟩ :: stack) ∧
    parkOnTrap .CancelShieldedCheckpoint = .runnable (.Value ()) := by
  refine ⟨rfl, fun e h => ?_, ?_, rfl⟩
  · exact CheckpointOutcome.noConfusion h
  · simp [cancel_shielded_checkpoint, serviceCancelShieldedCheckpoint,
      Result.unwrap, checkpoint, effectivelyCancelled]

/-- C9: after `aclose()`, every `send_all` on the pipe send stream raises
`ClosedResourceError`, which is an ordinary exception — neither a
cancellation nor a kernel-internal error. -/
theorem send_all_after_aclose_raises_closed_resource (s : PipeSendStream)
    (data : List Nat) :
    (s.aclose).send_all data = .error .closedResourceError ∧
    Exc.closedResourceError ≠ Exc.cancelled ∧
    Exc.closedResourceError ≠ Exc.trioInternalError := by
  refine ⟨rfl, ?_, ?_⟩ <;> intro h <;> exact Exc.noConfusion h

/-- C10: the `WaitTaskRescheduled` trap is immutable: its `abort_func` field
is exactly the callback passed at construction, equal traps carry equal
callbacks, and along any sequence of kernel events after a park begun with
`WaitTaskRescheduled f`, every abort callback the scheduler invokes is `f`
itself. -/
theorem wait_trap_abort_func_immutable (f : AbortFunc) :
    (Trap.WaitTaskRescheduled f).abortFuncOf = some f ∧
    (∀ g, Trap.WaitTaskRescheduled g = Trap.WaitTaskRescheduled f → g = f) ∧
    (∀ evs, ∀ g ∈ (runEvents (parkOnTrap (.WaitTaskRescheduled f)) evs).2,
      g = f) := by
  refine ⟨rfl, fun g h => by injection h, fun evs g hg => ?_⟩
  exact runEvents_invoked_eq f _ (by simp [parkOnTrap, parkGuard]) evs g hg

/-- C10 witness: delivering one cancellation to a park begun with a concrete
callback invokes exactly that callback. -/
theorem wait_trap_abort_func_immutable_witness :
    (⟨0, .returnsAbort .SUCCEEDED⟩ : AbortFunc) ∈
        (runEvents
          (parkOnTrap (.WaitTaskRescheduled ⟨0, .returnsAbort .SUCCEEDED⟩))
          [.deliverCancel]).2 ∧
    (⟨0, .returnsAbort .SUCCEEDED⟩ : AbortFunc)
        = ⟨0, .returnsAbort .SUCCEEDED⟩ :=
  ⟨by decide,
    (wait_trap_abort_func_immutable ⟨0, .returnsAbort .SUCCEEDED⟩).2.2
      [.deliverCancel] _ (by decide)⟩

end Trio
